import Mathlib

/-!
Shallow embedding of the EduBridge front-end (super-mogger/edubridge-ai-connect)
and verification of its specification claims.

Sources embedded:
- src/contexts/AuthContext.tsx : roles, users, auth state, login/logout,
  provider initialization, localStorage entry `edubridge-user`.
- components/ProtectedRoute (same file) : route guarding.
- App.tsx (DashboardRouter) and components/AppSidebar.tsx : role-based routing
  and navigation menus.
- pages/teacher/AIFeedback.tsx : mocked async fetch/regenerate, cache update,
  summary aggregation.
- pages/teacher/StudentPapers.tsx : mock papers and the search/status filter.

Modelling conventions:
- A JS Promise produced by `new Promise(resolve => setTimeout(resolve, d))`
  always resolves after `d` milliseconds and never rejects; an operation built
  on it is embedded as a total function returning a `Delayed` value that
  records the simulated delay. Where a caller has a rejection branch
  (try/catch, onError), the operation is wrapped in `Except` so that branch
  stays visible in the embedding.
- `Date.now()` is passed in explicitly as a millisecond timestamp `now : Nat`,
  and `toISOString()` is kept as the timestamp itself (the rendering is
  injective on timestamps, which is all the claims need).
- `Math.random()` in `regenerateFeedback` produces `r ∈ [0,1)`, so
  `Math.floor(75 + r*20)` is an integer in `[75, 94]`; the draw is modelled by
  a parameter `rand : Fin 20` giving `75 + rand`.
- `localStorage` is touched under the single key `edubridge-user`; the state
  field `storage : Option User` is the value stored under that key.
-/

namespace EduBridge

/-- `type UserRole = 'teacher' | 'parent' | 'student'` (AuthContext.tsx). -/
inductive UserRole
  | teacher
  | parent
  | student
deriving DecidableEq

/-- `interface User` (AuthContext.tsx). The TS field `children` is rendered
`childIds` here. -/
structure User where
  id : String
  name : String
  role : UserRole
  email : String
  avatar : Option String := none
  classId : Option String := none
  subject : Option String := none
  childIds : Option (List String) := none
  parentId : Option String := none
  grade : Option String := none
deriving DecidableEq

/-- `const mockUsers: Record<UserRole, User>` (AuthContext.tsx lines 32-59). -/
def mockUsers : UserRole → User
  | .teacher =>
    { id := "teacher-1"
      name := "Ms. Sarah Johnson"
      role := .teacher
      email := "sarah.johnson@edubridge.com"
      avatar := some "/api/placeholder/40/40"
      classId := some "class-5a"
      subject := some "English & Literature" }
  | .parent =>
    { id := "parent-1"
      name := "Mr. Raj Sharma"
      role := .parent
      email := "raj.sharma@gmail.com"
      avatar := some "/api/placeholder/40/40"
      childIds := some ["student-1"] }
  | .student =>
    { id := "student-1"
      name := "Aadhya Sharma"
      role := .student
      email := "aadhya.sharma@student.edubridge.com"
      avatar := some "/api/placeholder/40/40"
      parentId := some "parent-1"
      grade := some "5th Grade" }

/-- The state held by `AuthProvider`: the `user` React state, the
`edubridge-user` localStorage entry, and the `loading` flag. -/
structure AuthState where
  user : Option User
  storage : Option User
  loading : Bool
deriving DecidableEq

/-- `isAuthenticated: !!user` (AuthContext.tsx line 97). -/
def isAuthenticated (s : AuthState) : Bool :=
  s.user.isSome

/-- An async operation that always resolves: the simulated latency in
milliseconds together with the resolved value. -/
structure Delayed (α : Type) where
  delayMs : Nat
  value : α
deriving DecidableEq

/-- `login` (AuthContext.tsx lines 74-86): after a 1000 ms simulated delay it
sets the user to `mockUsers[role]`, writes that user to localStorage under
`edubridge-user`, and ends with `loading` false. `email` and `password` are
not read by the body. -/
def login (_email _password : String) (role : UserRole) (_s : AuthState) :
    Delayed AuthState :=
  let mockUser := mockUsers role
  ⟨1000, { user := some mockUser, storage := some mockUser, loading := false }⟩

/-- `logout` (AuthContext.tsx lines 88-91): clears the user state and removes
the `edubridge-user` localStorage entry; `loading` is not touched. -/
def logout (s : AuthState) : AuthState :=
  { user := none, storage := none, loading := s.loading }

/-- The `useEffect` initializer of `AuthProvider` (AuthContext.tsx lines
65-72): reads the saved `edubridge-user` entry into the user state (leaving
the entry itself in place) and sets `loading` false. -/
def providerInit (saved : Option User) : AuthState :=
  { user := saved, storage := saved, loading := false }

/-- The initial `useState` values of `AuthProvider`: no user, nothing read
yet, `loading` true. The localStorage entry is whatever was left behind. -/
def initialAuthState (saved : Option User) : AuthState :=
  { user := none, storage := saved, loading := true }

/-- The promise returned by `login` is built from `setTimeout` alone and its
body throws nothing, so as a fallible computation it is always `ok`. -/
def loginExc (email password : String) (role : UserRole) (s : AuthState) :
    Except String (Delayed AuthState) :=
  Except.ok (login email password role s)

/-- The toasts `handleLogin` (Login.tsx lines 24-52) can raise. -/
inductive LoginToast
  | missingInformation
  | welcome (role : UserRole)
  | loginFailed
deriving DecidableEq

/-- `handleLogin` (Login.tsx lines 24-52): empty email or password aborts with
the Missing Information toast; otherwise it awaits `login` and toasts Welcome
on success, with the catch branch toasting Login Failed. -/
def handleLogin (email password : String) (role : UserRole) (s : AuthState) :
    LoginToast × AuthState :=
  if email = "" || password = "" then
    (.missingInformation, s)
  else
    match loginExc email password role s with
    | .ok d => (.welcome role, d.value)
    | .error _ => (.loginFailed, s)

/-- C1: login is a lookup table keyed only by role — it always succeeds, sets
the current user to `mockUsers[role]` (so `isAuthenticated` becomes true), and
its result does not depend on the email, the password, or the prior state. -/
theorem login_is_role_lookup (email password email₂ password₂ : String)
    (role : UserRole) (s s₂ : AuthState) :
    (login email password role s).value.user = some (mockUsers role) ∧
    isAuthenticated (login email password role s).value = true ∧
    login email password role s = login email₂ password₂ role s₂ := by
  refine ⟨rfl, ?_, rfl⟩
  cases role <;> rfl

/-- C6 counterexample: login does store state outside the in-memory user
value — after a login the `edubridge-user` localStorage entry holds the
mock user, so the storage is not empty. -/
theorem login_stores_user_counterexample :
    ¬ ((login "teacher@demo.com" "demo123" UserRole.teacher
        (initialAuthState none)).value.storage = none) := by
  simp [login, initialAuthState]

/-- C6 amended: the only storage outside in-memory component state is the
single localStorage entry `edubridge-user`: login writes the mock user for the
chosen role to it, logout removes it, and provider initialization only reads
it, leaving it unchanged. -/
theorem persistence_is_single_entry (email password : String) (role : UserRole)
    (s : AuthState) (saved : Option User) :
    (login email password role s).value.storage = some (mockUsers role) ∧
    (logout s).storage = none ∧
    (providerInit saved).storage = saved := by
  exact ⟨rfl, rfl, rfl⟩

/-- C10: logout always yields the logged-out state — no user, not
authenticated, the saved `edubridge-user` entry removed — and login followed
by logout brings a logged-out state (no user, nothing saved, not loading) back
to itself. -/
theorem logout_round_trip (s t : AuthState) (email password : String)
    (role : UserRole)
    (h : t.user = none ∧ t.storage = none ∧ t.loading = false) :
    (logout s).user = none ∧
    isAuthenticated (logout s) = false ∧
    (logout s).storage = none ∧
    logout (login email password role t).value = t := by
  obtain ⟨hu, hs, hl⟩ := h
  refine ⟨rfl, rfl, rfl, ?_⟩
  cases t
  simp_all [logout, login]

/-- Witness for C10 at the empty logged-out state. -/
theorem logout_round_trip_witness :
    ((⟨none, none, false⟩ : AuthState).user = none ∧
      (⟨none, none, false⟩ : AuthState).storage = none ∧
      (⟨none, none, false⟩ : AuthState).loading = false) ∧
    ((logout ⟨some (mockUsers .student), some (mockUsers .student), false⟩).user
        = none ∧
      isAuthenticated
        (logout ⟨some (mockUsers .student), some (mockUsers .student), false⟩)
        = false ∧
      (logout
          ⟨some (mockUsers .student), some (mockUsers .student), false⟩).storage
        = none ∧
      logout (login "a@b.c" "pw" UserRole.parent
          (⟨none, none, false⟩ : AuthState)).value
        = (⟨none, none, false⟩ : AuthState)) :=
  ⟨⟨rfl, rfl, rfl⟩,
    logout_round_trip
      ⟨some (mockUsers .student), some (mockUsers .student), false⟩
      ⟨none, none, false⟩ "a@b.c" "pw" UserRole.parent ⟨rfl, rfl, rfl⟩⟩

/-- What `ProtectedRoute` (components/ProtectedRoute.tsx) returns. -/
inductive RenderResult
  | loadingSpinner
  | redirect (target : String)
  | renderChildren
deriving DecidableEq

/-- `roleDashboards` (ProtectedRoute.tsx lines 149-153): every role maps to
`/dashboard`. -/
def roleDashboards : UserRole → String
  | .teacher => "/dashboard"
  | .parent => "/dashboard"
  | .student => "/dashboard"

/-- `ProtectedRoute` (ProtectedRoute.tsx lines 123-158): while loading, a
spinner; unauthenticated visitors are sent to `/login`; when `allowedRoles`
is given and excludes the user role, the user is sent to their role
dashboard; otherwise the children render. `isAuthenticated` here is `!!user`
from the same context value. -/
def protectedRoute (loading : Bool) (user : Option User)
    (allowedRoles : Option (List UserRole)) : RenderResult :=
  if loading then
    .loadingSpinner
  else if !user.isSome then
    .redirect "/login"
  else
    match allowedRoles, user with
    | some roles, some u =>
      if !(roles.contains u.role) then .redirect (roleDashboards u.role)
      else .renderChildren
    | _, _ => .renderChildren

/-- C2: with loading finished, `ProtectedRoute` redirects unauthenticated
visitors to `/login`, redirects an authenticated user excluded by
`allowedRoles` to `/dashboard`, and renders its children exactly when the
user is authenticated and either no `allowedRoles` is given or it contains
the user role. -/
theorem protectedRoute_guards (u : User) (roles : List UserRole)
    (a : Option (List UserRole)) :
    protectedRoute false none a = .redirect "/login" ∧
    protectedRoute false (some u) none = .renderChildren ∧
    protectedRoute false (some u) (some roles)
      = (if u.role ∈ roles then .renderChildren
         else .redirect "/dashboard") := by
  refine ⟨by cases a <;> rfl, rfl, ?_⟩
  have hc : roles.contains u.role = decide (u.role ∈ roles) := by
    induction roles with
    | nil => rfl
    | cons x xs ih =>
      by_cases hx : u.role = x
      · subst hx
        simp [List.contains_cons]
      · have hbeq : (u.role == x) = false := beq_eq_false_iff_ne.mpr hx
        simp [List.contains_cons, hbeq, ih, hx]
  by_cases h : u.role ∈ roles
  · simp [protectedRoute, hc, h]
  · simp [protectedRoute, hc, h]
    cases u.role <;> rfl

/-- The three dashboards routed at `/dashboard` by `DashboardRouter`. -/
inductive Page
  | teacherDashboard
  | parentDashboard
  | studentDashboard
deriving DecidableEq

/-- What `DashboardRouter` (App.tsx) renders at the `/dashboard` path. -/
inductive RouteResult
  | redirect (target : String)
  | page (p : Page)
deriving DecidableEq

/-- The role switch of `DashboardRouter` (App.tsx): the `/dashboard` route of
each role's `Routes` block. -/
def dashboardPage : UserRole → Page
  | .teacher => .teacherDashboard
  | .parent => .parentDashboard
  | .student => .studentDashboard

/-- `DashboardRouter` (App.tsx): with no user it navigates to `/login`,
otherwise it switches on `user.role`. -/
def dashboardRouter : Option User → RouteResult
  | none => .redirect "/login"
  | some u => .page (dashboardPage u.role)

/-- One entry of `menuItems` (AppSidebar.tsx lines 33-53); the icon is kept by
its lucide identifier. -/
structure MenuItem where
  title : String
  url : String
  icon : String
deriving DecidableEq

/-- `const menuItems: Record<UserRole, ...>` (AppSidebar.tsx lines 33-53). -/
def menuItems : UserRole → List MenuItem
  | .teacher =>
    [ ⟨"Class Overview", "/dashboard", "BarChart3"⟩,
      ⟨"Student Papers", "/papers", "FileText"⟩,
      ⟨"AI Feedback", "/feedback", "TrendingUp"⟩,
      ⟨"Students", "/students", "Users"⟩,
      ⟨"Settings", "/settings", "Settings"⟩ ]
  | .parent =>
    [ ⟨"Home", "/dashboard", "Home"⟩,
      ⟨"Progress", "/progress", "TrendingUp"⟩,
      ⟨"Messages", "/messages", "MessageSquare"⟩,
      ⟨"Settings", "/settings", "Settings"⟩ ]
  | .student =>
    [ ⟨"Dashboard", "/dashboard", "Home"⟩,
      ⟨"My Progress", "/my-progress", "Award"⟩,
      ⟨"Assignments", "/assignments", "BookOpen"⟩,
      ⟨"Settings", "/settings", "Settings"⟩ ]

/-- `AppSidebar` (AppSidebar.tsx lines 55-63): with no user it renders
nothing, otherwise the menu for `user.role`. -/
def appSidebarItems : Option User → Option (List MenuItem)
  | none => none
  | some u => some (menuItems u.role)

/-- C3: the dashboard rendered at `/dashboard` and the sidebar menu are both
selected solely by the user role — teacher gives TeacherDashboard and the
5-entry teacher menu, parent gives ParentDashboard and the 4-entry parent
menu, student gives StudentDashboard and the 4-entry student menu — and with
no user `DashboardRouter` redirects to `/login`. -/
theorem role_selects_dashboard_and_menu (u : User) :
    dashboardRouter (some u) = .page (dashboardPage u.role) ∧
    appSidebarItems (some u) = some (menuItems u.role) ∧
    dashboardPage .teacher = .teacherDashboard ∧
    dashboardPage .parent = .parentDashboard ∧
    dashboardPage .student = .studentDashboard ∧
    (menuItems .teacher).length = 5 ∧
    (menuItems .parent).length = 4 ∧
    (menuItems .student).length = 4 ∧
    dashboardRouter none = .redirect "/login" := by
  exact ⟨rfl, rfl, rfl, rfl, rfl, rfl, rfl, rfl, rfl⟩

/-- `status: 'draft' | 'final'` of a feedback entry (AIFeedback.tsx). -/
inductive FeedbackStatus
  | draft
  | final
deriving DecidableEq

/-- `interface FeedbackItem` (AIFeedback.tsx lines 38-49); `generatedAt` is
the millisecond timestamp rendered by `toISOString`. -/
structure FeedbackItem where
  id : String
  studentName : String
  subject : String
  submissionTitle : String
  aiScore : Nat
  strengths : List String
  improvements : List String
  generatedAt : Nat
  status : FeedbackStatus
  tags : List String
deriving DecidableEq

/-- `fetchFeedback` (AIFeedback.tsx lines 57-98): after a 600 ms simulated
delay it resolves with the canned three-entry array; the `generatedAt`
timestamps are offsets from `Date.now()`, passed here as `now`. -/
def fetchFeedback (now : Nat) : Delayed (List FeedbackItem) :=
  ⟨600,
    [ { id := "fb-1"
        studentName := "Aadhya Sharma"
        subject := "English"
        submissionTitle := "Creative Writing: My Summer"
        aiScore := 92
        strengths := ["Vivid imagery", "Strong narrative voice",
          "Excellent structure"]
        improvements := ["Minor grammar corrections", "Expand conclusion"]
        generatedAt := now - 1000 * 60 * 60
        status := .final
        tags := ["writing", "creativity"] },
      { id := "fb-2"
        studentName := "Arjun Patel"
        subject := "Math"
        submissionTitle := "Problem Set: Fractions & Ratios"
        aiScore := 78
        strengths := ["Correct methodology", "Good logical progression"]
        improvements := ["Improve fraction simplification speed",
          "Show intermediate steps"]
        generatedAt := now - 1000 * 60 * 60 * 5
        status := .draft
        tags := ["math", "practice"] },
      { id := "fb-3"
        studentName := "Diya Singh"
        subject := "Science"
        submissionTitle := "Report: Plant Life Cycle"
        aiScore := 85
        strengths := ["Clear explanation", "Accurate diagrams"]
        improvements := ["Add sources", "Clarify germination stage"]
        generatedAt := now - 1000 * 60 * 60 * 24
        status := .final
        tags := ["science", "report"] } ]⟩

/-- A feedback entry with its `generatedAt` timestamp blanked, for comparing
fetches made at different times field-by-field. -/
def eraseTimestamp (i : FeedbackItem) : FeedbackItem :=
  { i with generatedAt := 0 }

/-- The result object of `regenerateFeedback` (AIFeedback.tsx line 107). -/
structure RegenResult where
  id : String
  newScore : Nat
  timestamp : Nat
deriving DecidableEq

/-- `regenerateFeedback` (AIFeedback.tsx lines 105-108): after a 900 ms
simulated delay it resolves with a new score `Math.floor(75 + random*20)`
— the draw modelled by `rand : Fin 20` — and the current timestamp. -/
def regenerateFeedback (id : String) (rand : Fin 20) (now : Nat) :
    Delayed RegenResult :=
  ⟨900, ⟨id, 75 + rand.val, now⟩⟩

/-- The promise of `regenerateFeedback` is built from `setTimeout` alone and
its body throws nothing, so as a fallible computation it is always `ok`. -/
def regenExc (id : String) (rand : Fin 20) (now : Nat) :
    Except String (Delayed RegenResult) :=
  Except.ok (regenerateFeedback id rand now)

/-- The list update inside `regenMutation.onSuccess` (AIFeedback.tsx line
132): the entry whose id matches gets the new score, the new timestamp, and
status draft; every other entry is mapped to itself. -/
def regenUpdate (result : RegenResult) (old : List FeedbackItem) :
    List FeedbackItem :=
  old.map fun item =>
    if item.id = result.id then
      { item with
        aiScore := result.newScore
        generatedAt := result.timestamp
        status := .draft }
    else item

/-- The cache updater passed to `setQueryData` (AIFeedback.tsx lines 130-133):
an absent cache is returned unchanged, otherwise the list is mapped. -/
def applyRegen (result : RegenResult) :
    Option (List FeedbackItem) → Option (List FeedbackItem)
  | none => none
  | some old => some (regenUpdate result old)

/-- The toasts `regenMutation` can raise (AIFeedback.tsx lines 134-138). -/
inductive RegenToast
  | regenerated
  | failed
deriving DecidableEq

/-- Running `regenMutation.mutate` (AIFeedback.tsx lines 126-139): on success
the cache is updated and the success toast shown; the `onError` branch would
leave the cache alone and toast a failure. -/
def regenMutationRun (id : String) (rand : Fin 20) (now : Nat)
    (cache : Option (List FeedbackItem)) :
    RegenToast × Option (List FeedbackItem) :=
  match regenExc id rand now with
  | .ok d => (.regenerated, applyRegen d.value cache)
  | .error _ => (.failed, cache)

/-- The summary record computed by `summary` (AIFeedback.tsx lines 156-163). -/
structure SummaryStats where
  avgScore : Nat
  total : Nat
  drafts : Nat
  finals : Nat
deriving DecidableEq

/-- `Math.round(num/den)` for natural `num` and positive `den`: JavaScript
rounds half away from zero, i.e. `⌊num/den + 1/2⌋ = (2*num + den)/(2*den)`
in integer division. -/
def jsRound (num den : Nat) : Nat :=
  (2 * num + den) / (2 * den)

/-- `data.reduce((a, b) => a + b.aiScore, 0)` (AIFeedback.tsx line 159). -/
def sumScores (l : List FeedbackItem) : Nat :=
  l.foldl (fun a b => a + b.aiScore) 0

/-- The `summary` memo (AIFeedback.tsx lines 156-163): absent or empty data
gives all-zero stats; otherwise total is the length, avgScore the rounded
mean, drafts the number of draft entries and finals the rest. -/
def summary (data : Option (List FeedbackItem)) : SummaryStats :=
  match data with
  | none => ⟨0, 0, 0, 0⟩
  | some l =>
    if l.length = 0 then ⟨0, 0, 0, 0⟩
    else
      let total := l.length
      let avgScore := jsRound (sumScores l) total
      let drafts := (l.filter fun i => i.status == FeedbackStatus.draft).length
      ⟨avgScore, total, drafts, total - drafts⟩

/-- One record of `mockPapers` (StudentPapers.tsx); the nullable score and
feedback fields are options. -/
structure Paper where
  id : Nat
  studentName : String
  subject : String
  uploadDate : String
  status : String
  aiScore : Option Nat
  grammarScore : Option Nat
  creativityScore : Option Nat
  handwritingScore : Option Nat
  feedback : Option String
deriving DecidableEq

/-- `const mockPapers` (StudentPapers.tsx lines 19-56). -/
def mockPapers : List Paper :=
  [ { id := 1
      studentName := "Aadhya Sharma"
      subject := "English Essay"
      uploadDate := "2024-01-20"
      status := "reviewed"
      aiScore := some 92
      grammarScore := some 88
      creativityScore := some 95
      handwritingScore := some 85
      feedback := some
        "Excellent creative expression with minor grammar improvements needed." },
    { id := 2
      studentName := "Arjun Patel"
      subject := "Math Problem Set"
      uploadDate := "2024-01-19"
      status := "pending"
      aiScore := none
      grammarScore := none
      creativityScore := none
      handwritingScore := none
      feedback := none },
    { id := 3
      studentName := "Diya Singh"
      subject := "Science Report"
      uploadDate := "2024-01-18"
      status := "in-progress"
      aiScore := some 87
      grammarScore := some 90
      creativityScore := some 82
      handwritingScore := some 89
      feedback := some "Good scientific reasoning, work on conclusion clarity." } ]

/-- JavaScript `s.toLowerCase()`, character by character (these strings are
basic latin). -/
def jsToLower (s : String) : String :=
  ⟨s.data.map Char.toLower⟩

/-- JavaScript `s.includes(sub)`: `sub` occurs contiguously in `s`. -/
def jsIncludes (s sub : String) : Bool :=
  decide (sub.toList <:+: s.toList)

/-- `filteredPapers` (StudentPapers.tsx lines 62-67): the linear filter over
`mockPapers` matching the lowercased search term against the lowercased
student name or subject, and the status against the filter unless it is
`all`. -/
def filteredPapers (searchTerm statusFilter : String) : List Paper :=
  mockPapers.filter fun paper =>
    (jsIncludes (jsToLower paper.studentName) (jsToLower searchTerm)
      || jsIncludes (jsToLower paper.subject) (jsToLower searchTerm))
    && (statusFilter == "all" || paper.status == statusFilter)

/-- Pairs of `l.zip (l.map f)` relate each element to its image under `f`. -/
theorem snd_eq_map_fst_of_mem_zip_map {α : Type} (f : α → α) (l : List α) :
    ∀ p ∈ l.zip (l.map f), p.2 = f p.1 := by
  induction l with
  | nil => simp
  | cons x xs ih =>
    intro p hp
    simp only [List.map_cons, List.zip_cons_cons, List.mem_cons] at hp
    rcases hp with rfl | hp
    · rfl
    · exact ih p hp

/-- C4 counterexample: two calls of `fetchFeedback` made at different times
return unequal lists — the `generatedAt` fields embed the call time. -/
theorem fetchFeedback_time_dependent :
    ¬ ((fetchFeedback 3600000).value = (fetchFeedback 3600001).value) := by
  intro h
  have := congrArg (fun l => (l.map FeedbackItem.generatedAt).head?) h
  simp [fetchFeedback] at this

/-- C4 amended: every call of `fetchFeedback` resolves with a three-entry
array carrying ids fb-1, fb-2, fb-3 for Aadhya Sharma, Arjun Patel, Diya
Singh with aiScores 92, 78, 85, and two calls agree on every field except
the `generatedAt` timestamps, which depend on the call time. -/
theorem fetchFeedback_canned (t₁ t₂ : Nat) :
    ((fetchFeedback t₁).value.map fun i => (i.id, i.studentName, i.aiScore))
      = [("fb-1", "Aadhya Sharma", 92), ("fb-2", "Arjun Patel", 78),
          ("fb-3", "Diya Singh", 85)] ∧
    (fetchFeedback t₁).value.length = 3 ∧
    (fetchFeedback t₁).value.map eraseTimestamp
      = (fetchFeedback t₂).value.map eraseTimestamp := by
  refine ⟨by simp [fetchFeedback], rfl, by simp [fetchFeedback, eraseTimestamp]⟩

/-- C7: every asynchronous operation is a fixed artificial delay that always
resolves — login 1000 ms, fetchFeedback 600 ms, regenerateFeedback 900 ms —
so the Login Failed catch of `handleLogin` and the onError branch of
`regenMutation` are unreachable. -/
theorem async_ops_always_resolve (email password : String) (role : UserRole)
    (s : AuthState) (now : Nat) (id : String) (rand : Fin 20)
    (cache : Option (List FeedbackItem)) :
    (login email password role s).delayMs = 1000 ∧
    (fetchFeedback now).delayMs = 600 ∧
    (regenerateFeedback id rand now).delayMs = 900 ∧
    loginExc email password role s = .ok (login email password role s) ∧
    regenExc id rand now = .ok (regenerateFeedback id rand now) ∧
    (handleLogin email password role s).1 ≠ .loginFailed ∧
    (regenMutationRun id rand now cache).1 ≠ .failed := by
  refine ⟨rfl, rfl, rfl, rfl, rfl, ?_, ?_⟩
  · simp only [handleLogin, loginExc]
    split
    · simp
    · simp
  · simp [regenMutationRun, regenExc]

/-- C8: a successful regeneration for an id rewrites only the matching
entry, and of it only the aiScore, generatedAt and status fields (status
becoming draft); the length and the pairwise order are kept, an absent cache
stays absent, and an id matching no entry leaves the list identical. -/
theorem regen_updates_only_matching_item (result : RegenResult)
    (l : List FeedbackItem) :
    applyRegen result (some l) = some (regenUpdate result l) ∧
    applyRegen result none = none ∧
    (regenUpdate result l).length = l.length ∧
    (∀ p ∈ l.zip (regenUpdate result l),
      (p.1.id ≠ result.id → p.2 = p.1) ∧
      (p.1.id = result.id →
        p.2 = { p.1 with
                aiScore := result.newScore
                generatedAt := result.timestamp
                status := FeedbackStatus.draft })) ∧
    ((∀ item ∈ l, item.id ≠ result.id) → regenUpdate result l = l) := by
  refine ⟨rfl, rfl, by simp [regenUpdate], ?_, ?_⟩
  · intro p hp
    have h2 := snd_eq_map_fst_of_mem_zip_map _ l p hp
    constructor
    · intro hne
      rw [h2]
      simp [hne]
    · intro heq
      rw [h2]
      simp [heq]
  · intro h
    unfold regenUpdate
    have hcongr : ∀ item ∈ l,
        (if item.id = result.id then
          { item with
            aiScore := result.newScore
            generatedAt := result.timestamp
            status := FeedbackStatus.draft }
         else item) = id item := by
      intro item hitem
      simp [h item hitem]
    rw [List.map_congr_left hcongr, List.map_id]

/-- Witness for C8 at a call-time-3600000 fetch result and an id matching no
entry. -/
theorem regen_updates_only_matching_item_witness :
    (∀ item ∈ (fetchFeedback 3600000).value, item.id ≠ "fb-9") ∧
    regenUpdate ⟨"fb-9", 80, 5⟩ (fetchFeedback 3600000).value
      = (fetchFeedback 3600000).value :=
  ⟨by decide,
    (regen_updates_only_matching_item ⟨"fb-9", 80, 5⟩
      (fetchFeedback 3600000).value).2.2.2.2 (by decide)⟩

/-- `Math.round` of a nonneg rational `num/den` agrees with Mathlib `round`
(both round half upward). -/
theorem jsRound_eq_round (num den : Nat) (hden : 0 < den) :
    (jsRound num den : ℤ) = round ((num : ℚ) / (den : ℚ)) := by
  have hden' : (den : ℚ) ≠ 0 := Nat.cast_ne_zero.mpr hden.ne'
  rw [round_eq]
  have hsplit : (num : ℚ) / den + 1 / 2
      = ((2 * num + den : ℕ) : ℚ) / ((2 * den : ℕ) : ℚ) := by
    push_cast
    field_simp
    ring
  rw [hsplit]
  have h0 : (0 : ℚ) ≤ ((2 * num + den : ℕ) : ℚ) / ((2 * den : ℕ) : ℚ) := by
    positivity
  rw [← Int.natCast_floor_eq_floor h0]
  norm_cast

/-- C9: the summary satisfies drafts + finals = total = list length; for a
nonempty list avgScore is the arithmetic mean of the aiScores rounded to the
nearest integer (halves upward, as `Math.round`); an empty or absent list
gives all-zero stats. -/
theorem summary_totals_and_mean (l : List FeedbackItem) (h : l ≠ []) :
    (summary (some l)).drafts + (summary (some l)).finals
      = (summary (some l)).total ∧
    (summary (some l)).total = l.length ∧
    ((summary (some l)).avgScore : ℤ)
      = round ((sumScores l : ℚ) / (l.length : ℚ)) ∧
    summary (some []) = ⟨0, 0, 0, 0⟩ ∧
    summary none = ⟨0, 0, 0, 0⟩ := by
  have hlen : ¬ (l.length = 0) := fun hl => h (List.length_eq_zero.mp hl)
  have hsum : summary (some l)
      = ⟨jsRound (sumScores l) l.length, l.length,
          (l.filter fun i => i.status == FeedbackStatus.draft).length,
          l.length
            - (l.filter fun i => i.status == FeedbackStatus.draft).length⟩ := by
    simp [summary, hlen]
  refine ⟨?_, by rw [hsum], ?_, rfl, rfl⟩
  · rw [hsum]
    exact Nat.add_sub_cancel' (List.length_filter_le _ l)
  · rw [hsum]
    exact jsRound_eq_round _ _ (Nat.pos_of_ne_zero hlen)

/-- Witness for C9 on a concrete two-entry list whose mean 91.5 rounds up
to 92. -/
theorem summary_totals_and_mean_witness :
    (([⟨"fb-1", "A", "English", "T", 91, [], [], 0, FeedbackStatus.draft, []⟩,
        ⟨"fb-2", "B", "Math", "T", 92, [], [], 0, FeedbackStatus.final, []⟩] :
        List FeedbackItem) ≠ []) ∧
    ((summary (some [⟨"fb-1", "A", "English", "T", 91, [], [], 0,
          FeedbackStatus.draft, []⟩,
        ⟨"fb-2", "B", "Math", "T", 92, [], [], 0,
          FeedbackStatus.final, []⟩])).drafts
        + (summary (some [⟨"fb-1", "A", "English", "T", 91, [], [], 0,
            FeedbackStatus.draft, []⟩,
          ⟨"fb-2", "B", "Math", "T", 92, [], [], 0,
            FeedbackStatus.final, []⟩])).finals
      = (summary (some [⟨"fb-1", "A", "English", "T", 91, [], [], 0,
            FeedbackStatus.draft, []⟩,
          ⟨"fb-2", "B", "Math", "T", 92, [], [], 0,
            FeedbackStatus.final, []⟩])).total ∧
      (summary (some [⟨"fb-1", "A", "English", "T", 91, [], [], 0,
            FeedbackStatus.draft, []⟩,
          ⟨"fb-2", "B", "Math", "T", 92, [], [], 0,
            FeedbackStatus.final, []⟩])).total
        = ([⟨"fb-1", "A", "English", "T", 91, [], [], 0,
            FeedbackStatus.draft, []⟩,
          ⟨"fb-2", "B", "Math", "T", 92, [], [], 0,
            FeedbackStatus.final, []⟩] : List FeedbackItem).length ∧
      ((summary (some [⟨"fb-1", "A", "English", "T", 91, [], [], 0,
            FeedbackStatus.draft, []⟩,
          ⟨"fb-2", "B", "Math", "T", 92, [], [], 0,
            FeedbackStatus.final, []⟩])).avgScore : ℤ)
        = round ((sumScores [⟨"fb-1", "A", "English", "T", 91, [], [], 0,
              FeedbackStatus.draft, []⟩,
            ⟨"fb-2", "B", "Math", "T", 92, [], [], 0,
              FeedbackStatus.final, []⟩] : ℚ)
            / (([⟨"fb-1", "A", "English", "T", 91, [], [], 0,
                FeedbackStatus.draft, []⟩,
              ⟨"fb-2", "B", "Math", "T", 92, [], [], 0,
                FeedbackStatus.final, []⟩] :
                List FeedbackItem).length : ℚ)) ∧
      summary (some []) = ⟨0, 0, 0, 0⟩ ∧
      summary none = ⟨0, 0, 0, 0⟩) :=
  ⟨by decide, summary_totals_and_mean _ (by decide)⟩

/-- C5: a paper appears in `filteredPapers` iff it is a `mockPapers` entry
whose lowercased student name or subject contains the lowercased search term
and whose status matches the filter (or the filter is `all`); the result is a
sublist of `mockPapers` in the original order, and the empty search with
filter `all` keeps every paper. -/
theorem filteredPapers_matches (searchTerm statusFilter : String)
    (paper : Paper) :
    (paper ∈ filteredPapers searchTerm statusFilter ↔
      paper ∈ mockPapers ∧
      (((jsToLower searchTerm).toList
            <:+: (jsToLower paper.studentName).toList ∨
          (jsToLower searchTerm).toList
            <:+: (jsToLower paper.subject).toList) ∧
        (statusFilter = "all" ∨ paper.status = statusFilter))) ∧
    (filteredPapers searchTerm statusFilter).Sublist mockPapers ∧
    filteredPapers "" "all" = mockPapers := by
  refine ⟨?_, List.filter_sublist mockPapers, ?_⟩
  · simp only [filteredPapers, List.mem_filter, Bool.and_eq_true,
      Bool.or_eq_true, jsIncludes, decide_eq_true_eq, beq_iff_eq]
  · simp only [filteredPapers, jsIncludes]
    rw [List.filter_eq_self]
    intro p hp
    have h0 : (jsToLower "").data = ([] : List Char) := rfl
    simp [h0, List.nil_infix]

end EduBridge
